import Mathlib

/-!
Shallow embedding of the multi-chain Safe-wallet onboarding orchestrator of
the ff-frontend repository, together with proofs about the claims of its
specification.

Embedded source files:
* `src/web3/onboard-utils/safemodule-verifier.ts` (`verifyModuleEnabled`)
* `src/web3/utils/safe.ts` / chain-switcher (`ensureChainSelected`, `waitForChain`)
* the onboarding provider (`processChain`, `startOnboarding`, `retryChain`,
  `checkUser`, `fetchUserData`, `initializeProgress`)

External collaborators (wallet creation, signing, submitting, the on-chain
read, the HTTP fetch, the chain registry lookup `getChain`, the module
address configuration `getSafeModuleAddress`) are modelled as oracle inputs
collected in an `Env` structure: each field records what the corresponding
awaited call would return (`Except.error` models a thrown rejection).
Timed waits are modelled by poll-tick indices (one tick per 100 ms poll of
`waitForChain`, one index per read attempt of the verifier); the sleeps of
the verifier's backoff are recorded as a list of millisecond durations.
A progress map `Record<string, ChainProgress>` is modelled as a total
function `String → ChainProgress`; an absent entry behaves, for every
observation made here, like the all-idle entry with no error and no
address, which matches the JS spread semantics on an undefined entry.
-/

namespace FF

/-- The four step states of `OnboardingStepStatus`. -/
inductive StepStatus where
  | idle
  | pending
  | success
  | error
deriving DecidableEq, Repr

/-- `ChainProgress`: per-chain progress record. -/
structure ChainProgress where
  walletCreate : StepStatus
  moduleSign : StepStatus
  moduleEnable : StepStatus
  moduleVerify : StepStatus
  error : Option String
  safeAddress : Option String
deriving DecidableEq, Repr

/-- `ChainInfo` from the chain registry: identifier, display name, numeric
chain id, testnet flag. -/
structure ChainInfo where
  id : String
  name : String
  chainId : Nat
  isTestnet : Bool
deriving DecidableEq, Repr

/-- `ChainConfig` is an alias of `ChainInfo` in the source. -/
abbrev ChainConfig := ChainInfo

/-- The all-idle progress entry produced by `initializeProgress` for each
configured chain (no error, no safe address). -/
def idleEntry : ChainProgress :=
  { walletCreate := .idle
    moduleSign := .idle
    moduleEnable := .idle
    moduleVerify := .idle
    error := none
    safeAddress := none }

/-- `initializeProgress`: build the initial progress map, one all-idle entry
per configured chain.  Entries outside the configured set behave as the
empty (all-idle) entry. -/
def initializeProgress (chains : List ChainConfig) : String → ChainProgress :=
  chains.foldl (fun acc chain k => if k = chain.id then idleEntry else acc k)
    (fun _ => idleEntry)

/-- The progress-map update `{ ...prev, [chainKey]: f(prev[chainKey]) }`. -/
def updateProg (p : String → ChainProgress) (chainKey : String)
    (f : ChainProgress → ChainProgress) : String → ChainProgress :=
  fun k => if k = chainKey then f (p chainKey) else p k

/-- `UserData` as returned by the backend, with the two optional
per-network Safe wallet addresses. -/
structure UserData where
  id : String
  address : String
  email : String
  onboarded_at : String
  safe_wallet_address_testnet : Option String
  safe_wallet_address_mainnet : Option String
deriving DecidableEq, Repr

/-- Result of `createSafeWallet`. -/
structure CreateSafeResult where
  success : Bool
  safeAddress : Option String
  error : Option String
deriving DecidableEq, Repr

/-- `SignEnableModuleResult`: payload of a successful sign. -/
structure SignEnableModuleResult where
  threshold : Nat
  owners : List String
  safeTxHash : String
deriving DecidableEq, Repr

/-- `SignResult` of `signEnableModule`. -/
structure SignResult where
  success : Bool
  data : Option SignEnableModuleResult
  error : Option String
deriving DecidableEq, Repr

/-- `SubmitResult` of `submitEnableModule` (payload irrelevant here). -/
structure SubmitResult where
  success : Bool
  error : Option String
deriving DecidableEq, Repr

/-! ## Chain switcher: `ensureChainSelected` and `waitForChain` -/

/-- `ensureChainSelected` (chain-switcher): throws when the embedded wallet
is missing, otherwise forwards `switchChain`, wrapping its error. -/
def ensureChainSelected (hasEmbeddedWallet : Bool)
    (switchResult : Except String Unit) (targetChainId : Nat) :
    Except String Unit :=
  if hasEmbeddedWallet then
    match switchResult with
    | .ok _ => .ok ()
    | .error msg =>
        .error ("Failed to switch to chain " ++ toString targetChainId
          ++ ": " ++ msg)
  else .error "Embedded wallet not available"

/-- Number of 100 ms poll ticks that fit into `timeoutMs` (the loop polls
while the elapsed time is below the timeout, starting at elapsed 0). -/
def waitTicks (timeoutMs : Nat) : Nat := (timeoutMs + 99) / 100

/-- The poll loop of `waitForChain`: at each remaining tick, read the
getter; return success once it reports the target, otherwise sleep 100 ms
and retry; when the fuel (ticks within the timeout) runs out, throw the
timeout error.  Also returns the number of polls performed. -/
def waitForChainAux (getCurrentChainId : Nat → Option Nat)
    (targetChainId : Nat) : Nat → Nat → Except String Unit × Nat
  | 0, _ =>
      (.error ("Timeout waiting for chain " ++ toString targetChainId
        ++ " to become active"), 0)
  | fuel + 1, t =>
      if getCurrentChainId t = some targetChainId then (.ok (), 1)
      else
        let rest := waitForChainAux getCurrentChainId targetChainId fuel (t + 1)
        (rest.1, rest.2 + 1)

/-- `waitForChain`: poll `getCurrentChainId` every 100 ms until it reports
`targetChainId`, bounded by `timeoutMs` (source default 5000 ms). -/
def waitForChain (getCurrentChainId : Nat → Option Nat)
    (targetChainId : Nat) (timeoutMs : Nat := 5000) :
    Except String Unit × Nat :=
  waitForChainAux getCurrentChainId targetChainId (waitTicks timeoutMs) 0

/-! ## `verifyModuleEnabled` (safemodule-verifier) -/

/-- The backoff delay slept after failed attempt `attempt`:
`delayMs * 1.5 ^ attempt` milliseconds. -/
def verifyDelay (delayMs attempt : Nat) : ℚ :=
  (delayMs : ℚ) * (3 / 2 : ℚ) ^ attempt

/-- The retry loop of `verifyModuleEnabled`.  `readModule n` is the outcome
of the `isModuleEnabled` contract call on attempt `n` (`.error` models a
thrown read).  A read that RETURNS (true or false) ends the loop with that
value; only a thrown read is retried, sleeping `verifyDelay` between
attempts.  Returns the outcome, the number of reads performed, and the
list of slept delays. -/
def verifyLoop (readModule : Nat → Except String Bool)
    (maxRetries delayMs : Nat) :
    Nat → Nat → Option String → Except String Bool × Nat × List ℚ
  | 0, _, lastError =>
      (.error ("Failed to verify module status after " ++ toString maxRetries
        ++ " attempts: " ++ lastError.getD "Unknown error"), 0, [])
  | fuel + 1, attempt, _ =>
      match readModule attempt with
      | .ok isEnabled => (.ok isEnabled, 1, [])
      | .error e =>
          let rest := verifyLoop readModule maxRetries delayMs fuel
            (attempt + 1) (some e)
          (rest.1, rest.2.1 + 1,
            if attempt < maxRetries - 1 then
              verifyDelay delayMs attempt :: rest.2.2
            else rest.2.2)

/-- `verifyModuleEnabled`: look up the module address for the chain and
throw before any read when it is not configured; otherwise run the retry
loop (defaults in the source: 3 retries, 2000 ms base delay). -/
def verifyModuleEnabled (chainId : Nat) (moduleAddress : Option String)
    (readModule : Nat → Except String Bool)
    (maxRetries : Nat := 3) (delayMs : Nat := 2000) :
    Except String Bool × Nat × List ℚ :=
  match moduleAddress with
  | none =>
      (.error ("Module address not configured for chain " ++ toString chainId),
        0, [])
  | some _ => verifyLoop readModule maxRetries delayMs maxRetries 0 none

/-! ## `fetchUserData` -/

/-- The HTTP response shape consumed by `fetchUserData`: transport `ok`
flag, body `success` flag, body `data`. -/
structure FetchResponse where
  ok : Bool
  success : Bool
  data : Option UserData
deriving DecidableEq, Repr

/-- `fetchUserData`: returns `none` when unauthenticated, when no access
token is available, when the fetch throws (network error), when the
response status is not ok, or when the body's `success` flag is false;
otherwise returns the body's `data`. -/
def fetchUserData (authenticated : Bool) (accessToken : Option String)
    (response : Except String FetchResponse) : Option UserData :=
  if authenticated then
    match accessToken with
    | none => none
    | some _ =>
        match response with
        | .error _ => none
        | .ok r => if r.ok then (if r.success then r.data else none) else none
  else none

/-! ## `checkUser`: determine required chains -/

/-- Truthiness of an optional string field (`!field` in JS): absent or
empty counts as missing. -/
def isFalsyStr : Option String → Bool
  | none => true
  | some s => s = ""

/-- The filter predicate of `checkUser`: a chain still needs setup iff the
registry says it is a testnet chain and no testnet wallet is recorded, or a
mainnet chain and no mainnet wallet is recorded; a chain missing from the
registry counts as needing setup. -/
def chainNeedsSetup (getChain : Nat → Option ChainInfo) (user : UserData)
    (chain : ChainConfig) : Bool :=
  match getChain chain.chainId with
  | some c =>
      if c.isTestnet then isFalsyStr user.safe_wallet_address_testnet
      else isFalsyStr user.safe_wallet_address_mainnet
  | none => true

/-- The all-success entry written by the pre-fill of `checkUser` (a whole
replacement: error and safe address are dropped). -/
def allSuccessEntry : ChainProgress :=
  { walletCreate := .success
    moduleSign := .success
    moduleEnable := .success
    moduleVerify := .success
    error := none
    safeAddress := none }

/-- The `hasWallet` computation of the pre-fill loop of `checkUser`: a
wallet already exists for the chain's network (false when the chain is
missing from the registry). -/
def hasWalletFor (getChain : Nat → Option ChainInfo) (user : UserData)
    (chain : ChainConfig) : Bool :=
  match getChain chain.chainId with
  | some c =>
      if c.isTestnet then !isFalsyStr user.safe_wallet_address_testnet
      else !isFalsyStr user.safe_wallet_address_mainnet
  | none => false

/-- The pre-fill loop of `checkUser`: for every configured chain whose
network already has a recorded wallet, replace its progress entry by the
all-success entry. -/
def prefillProgress (getChain : Nat → Option ChainInfo) (user : UserData)
    (chains : List ChainConfig) (prev : String → ChainProgress) :
    String → ChainProgress :=
  chains.foldl
    (fun acc chain =>
      if hasWalletFor getChain user chain then
        fun k => if k = chain.id then allSuccessEntry else acc k
      else acc)
    prev

/-- `checkUser` (the body of the user-check effect, given the fetched
user): a missing record means the user needs full onboarding and the
progress map is untouched; for an existing user, filter the chains that
still need setup; when at least one does, report needs-onboarding and
pre-fill the others' progress, otherwise report no onboarding needed with
the progress map untouched. -/
def checkUser (getChain : Nat → Option ChainInfo)
    (chainsToSetup : List ChainConfig) (user : Option UserData)
    (prev : String → ChainProgress) : Bool × (String → ChainProgress) :=
  match user with
  | none => (true, prev)
  | some u =>
      let chainsNeedingSetup := chainsToSetup.filter (chainNeedsSetup getChain u)
      if chainsNeedingSetup.length > 0 then
        (true, prefillProgress getChain u chainsToSetup prev)
      else (false, prev)

/-! ## `processChain` -/

/-- Oracle for one execution of `processChain`: what each awaited
collaborator call would return (`.error` models a thrown rejection).
`providerChainId` is what `currentProviderChainId` would report at poll
tick `t`; note that `processChain` never consults it, since it passes a
constant getter to `waitForChain`.  `readModule n` is the outcome of the
`isModuleEnabled` read on attempt `n`; `moduleAddress` is
`getSafeModuleAddress chainId`. -/
structure Env where
  createResult : Except String CreateSafeResult
  hasEmbeddedWallet : Bool
  switchResult : Except String Unit
  providerChainId : Nat → Option Nat
  signResult : Except String SignResult
  submitResult : Except String SubmitResult
  hasEthereumProvider : Bool
  moduleAddress : Option String
  readModule : Nat → Except String Bool

/-- The orchestrator's session state: the progress map, the single-slot
currently-signing chain, and the two session flags. -/
structure SessionState where
  progress : String → ChainProgress
  currentSigningChain : Option String
  needsOnboarding : Bool
  isOnboarding : Bool

/-- The awaited collaborator calls `processChain` performs, in order. -/
inductive CallEvent where
  | createWallet
  | switchChain
  | sign
  | submit
  | verify
deriving DecidableEq, Repr

/-- Result of one `processChain` execution: the boolean it returns, the
state after all its updates, and the log of collaborator calls made. -/
structure ChainOutcome where
  ok : Bool
  state : SessionState
  calls : List CallEvent

/-- One `setProgress` call: replace the processed chain's entry by a
function of its previous value, leaving every other entry unchanged. -/
def setP (st : SessionState) (chainKey : String)
    (f : ChainProgress → ChainProgress) : SessionState :=
  { st with progress := updateProg st.progress chainKey f }

/-- One `setCurrentSigningChain` call. -/
def setSigning (st : SessionState) (v : Option String) : SessionState :=
  { st with currentSigningChain := v }

/-- Step 5 of `processChain` (the tail of the source function from the
`moduleVerify: "pending"` write): the verify try/catch.  A missing
provider throws into the catch; a thrown verification lands there too;
a clean false read is the "module not enabled" failure. -/
def verifyPhase (env : Env) (chain : ChainConfig) (st : SessionState) :
    ChainOutcome :=
  let chainKey := chain.id
  let st := setP st chainKey (fun old => { old with moduleVerify := .pending })
  if !env.hasEthereumProvider then
    ⟨false,
      setP st chainKey (fun old => { old with moduleVerify := .error, error := some "Verification failed: Ethereum provider not available" }),
      [.createWallet, .switchChain, .sign, .submit]⟩
  else
    match (verifyModuleEnabled chain.chainId env.moduleAddress env.readModule 5 2000).1 with
    | .error e =>
        ⟨false,
          setP st chainKey (fun old => { old with moduleVerify := .error, error := some ("Verification failed: " ++ e) }),
          [.createWallet, .switchChain, .sign, .submit, .verify]⟩
    | .ok isEnabled =>
      if !isEnabled then
        ⟨false,
          setP st chainKey (fun old => { old with moduleVerify := .error, error := some "Module not enabled after transaction" }),
          [.createWallet, .switchChain, .sign, .submit, .verify]⟩
      else
        ⟨true,
          setP st chainKey (fun old => { old with moduleVerify := .success }),
          [.createWallet, .switchChain, .sign, .submit, .verify]⟩

/-- Step 4 of `processChain` (from the `moduleEnable: "pending"` write):
submit the previously signed transaction; a thrown submit lands in the
outer catch (error message only). -/
def submitPhase (env : Env) (chain : ChainConfig) (st : SessionState) :
    ChainOutcome :=
  let chainKey := chain.id
  let st := setP st chainKey (fun old => { old with moduleEnable := .pending })
  match env.submitResult with
  | .error e =>
      -- outer catch
      ⟨false, setP st chainKey (fun old => { old with error := some e }),
        [.createWallet, .switchChain, .sign, .submit]⟩
  | .ok submitResult =>
    if !submitResult.success then
      ⟨false,
        setP st chainKey (fun old => { old with moduleEnable := .error, error := submitResult.error }),
        [.createWallet, .switchChain, .sign, .submit]⟩
    else
      verifyPhase env chain
        (setP st chainKey (fun old => { old with moduleEnable := .success }))

/-- Step 3 of `processChain` (from the `signEnableModule` call, the
provider already being on the target chain): a thrown sign lands in the
outer catch, which does NOT clear the signing slot; a failed sign result
marks the step error and clears the slot; a successful sign clears the
slot and either short-circuits (empty `safeTxHash`: module already
enabled, steps 4 and 5 skipped) or continues with the submit phase. -/
def signPhase (env : Env) (chain : ChainConfig) (st : SessionState) :
    ChainOutcome :=
  let chainKey := chain.id
  match env.signResult with
  | .error e =>
      -- thrown, not a failed result: outer catch (slot not cleared)
      ⟨false, setP st chainKey (fun old => { old with error := some e }),
        [.createWallet, .switchChain, .sign]⟩
  | .ok signResult =>
    if !signResult.success then
      let st := setP st chainKey (fun old => { old with moduleSign := .error, error := signResult.error })
      ⟨false, setSigning st none, [.createWallet, .switchChain, .sign]⟩
    else
      let st := setP st chainKey (fun old => { old with moduleSign := .success })
      let st := setSigning st none
      if (match signResult.data with
          | some d => d.safeTxHash == ""
          | none => false) then
        -- module already enabled: short-circuit, no submit
        ⟨true,
          setP st chainKey (fun old => { old with moduleEnable := .success, moduleVerify := .success }),
          [.createWallet, .switchChain, .sign]⟩
      else submitPhase env chain st

/-- Step 2 of `processChain` (from the `moduleSign: "pending"` write):
acquire the signing slot, request the chain switch, then wait via
`waitForChain` — called, as in the source, with the constant getter
`() => numericChainId` and a 10 s timeout.  Any throw of the inner
try/catch marks module-sign error and releases the slot. -/
def switchPhase (env : Env) (chain : ChainConfig) (st : SessionState) :
    ChainOutcome :=
  let chainKey := chain.id
  let numericChainId := chain.chainId
  let st := setP st chainKey (fun old => { old with moduleSign := .pending })
  let st := setSigning st (some chainKey)
  let switchOutcome : Except String Unit :=
    match ensureChainSelected env.hasEmbeddedWallet env.switchResult numericChainId with
    | .error e => .error e
    | .ok _ => (waitForChain (fun _ => some numericChainId) numericChainId 10000).1
  match switchOutcome with
  | .error e =>
      let st := setP st chainKey (fun old => { old with moduleSign := .error, error := some ("Failed to switch to " ++ chain.name ++ ": " ++ e) })
      ⟨false, setSigning st none, [.createWallet, .switchChain]⟩
  | .ok _ => signPhase env chain st

/-- `processChain`: the five-step per-chain sequence, phase by phase.
Each `setP` mirrors one `setProgress` call of the source (spread of the
previous entry with the listed fields replaced); `setSigning` mirrors
`setCurrentSigningChain`.  A thrown collaborator call (`.error`) that is
not inside one of the two inner try/catch blocks lands in the outer
catch, which records only the error message (it resets no step status
and does not clear the signing slot). -/
def processChain (env : Env) (chain : ChainConfig) (st : SessionState) :
    ChainOutcome :=
  let chainKey := chain.id
  -- Step 1: create wallet
  let st := setP st chainKey (fun old => { old with walletCreate := .pending, error := none })
  match env.createResult with
  | .error e =>
      -- outer catch
      ⟨false, setP st chainKey (fun old => { old with error := some e }),
        [.createWallet]⟩
  | .ok createResult =>
    if !createResult.success then
      ⟨false,
        setP st chainKey (fun old => { old with walletCreate := .error, error := createResult.error }),
        [.createWallet]⟩
    else
      let safeAddress := createResult.safeAddress
      let st := setP st chainKey (fun old => { old with walletCreate := .success, safeAddress := safeAddress })
      switchPhase env chain st

/-! ## `startOnboarding` and `retryChain` -/

/-- The skip test of the full run: a chain is already complete when all
four of its steps are success. -/
def isChainComplete (p : ChainProgress) : Bool :=
  p.walletCreate = .success && p.moduleSign = .success
    && p.moduleEnable = .success && p.moduleVerify = .success

/-- The loop of `startOnboarding`: iterate the configured chains in their
static order; skip chains whose captured progress (`progress0`, the
closure's value at callback creation) is already fully successful; process
each other chain; record `(chain id, outcome)` per processed chain and the
conjunction of outcomes. -/
def runChains (envOf : String → Env) (progress0 : String → ChainProgress) :
    List ChainConfig → SessionState → Bool × SessionState × List (String × Bool)
  | [], st => (true, st, [])
  | chain :: rest, st =>
      if isChainComplete (progress0 chain.id) then
        runChains envOf progress0 rest st
      else
        let out := processChain (envOf chain.id) chain st
        let restOut := runChains envOf progress0 rest out.state
        (out.ok && restOut.1, restOut.2.1, (chain.id, out.ok) :: restOut.2.2)

/-- Result of `startOnboarding`: the final state, the per-chain log of the
run, and whether the user record was refetched after the loop. -/
structure RunOutcome where
  state : SessionState
  log : List (String × Bool)
  refetched : Bool

/-- `startOnboarding`: no-op when a run is already in progress; otherwise
set in-progress, run the loop over all configured chains, refetch the user
record, clear needs-onboarding only when every processed chain succeeded,
and clear in-progress. -/
def startOnboarding (envOf : String → Env) (chains : List ChainConfig)
    (st : SessionState) : RunOutcome :=
  if st.isOnboarding then ⟨st, [], false⟩
  else
    let st1 : SessionState := { st with isOnboarding := true }
    let r := runChains envOf st.progress chains st1
    -- await fetchUserData(): refetch, result unused
    let st2 := if r.1 then { r.2.1 with needsOnboarding := false } else r.2.1
    ⟨{ st2 with isOnboarding := false }, r.2.2, true⟩

/-- `string | number` chain identifiers accepted by `retryChain`. -/
def identMatches (c : ChainConfig) : String ⊕ Nat → Bool
  | .inl s => c.id == s
  | .inr n => c.chainId == n

/-- `retryChain`: resolve the chain by stable id or numeric id (no-op when
not found) and run `processChain` for it alone.  On success, refetch the
user record and, when every other chain's captured progress is already at
verify-success, clear both session flags. -/
def retryChain (env : Env) (chains : List ChainConfig)
    (identifier : String ⊕ Nat) (st : SessionState) : RunOutcome :=
  match chains.find? (fun c => identMatches c identifier) with
  | none => ⟨st, [], false⟩
  | some chain =>
      let out := processChain env chain st
      if out.ok then
        -- refetch user data (result unused), then the all-complete check
        -- over the captured pre-retry progress of the other chains
        let allComplete := chains.all (fun c =>
          if identMatches c identifier then true
          else (st.progress c.id).moduleVerify == .success)
        if allComplete then
          ⟨{ out.state with needsOnboarding := false, isOnboarding := false },
            [(chain.id, true)], true⟩
        else ⟨out.state, [(chain.id, true)], true⟩
      else ⟨out.state, [(chain.id, false)], false⟩

/-- Spec-side predicate (refinement comparison for claim C8), written after
the specification's words: a chain requires setup iff it is a testnet
chain with no testnet wallet recorded, or a mainnet chain with no mainnet
wallet recorded. -/
def requiresSetupSpec (user : UserData) (chain : ChainConfig) : Bool :=
  (chain.isTestnet && isFalsyStr user.safe_wallet_address_testnet)
    || (!chain.isTestnet && isFalsyStr user.safe_wallet_address_mainnet)

/-! ## Concrete fixtures used by witnesses and counterexamples -/

/-- A testnet chain as in the configuration examples. -/
def sepoliaChain : ChainConfig := ⟨"sepolia", "Sepolia", 11155111, true⟩

/-- A mainnet chain as in the configuration examples. -/
def mainnetChain : ChainConfig := ⟨"mainnet", "Mainnet", 1, false⟩

/-- An environment in which every collaborator call succeeds. -/
def baseEnv : Env :=
  { createResult := .ok ⟨true, some "0xsafe", none⟩
    hasEmbeddedWallet := true
    switchResult := .ok ()
    providerChainId := fun _ => some 11155111
    signResult := .ok ⟨true, some ⟨1, ["0xowner"], "0xhash"⟩, none⟩
    submitResult := .ok ⟨true, none⟩
    hasEthereumProvider := true
    moduleAddress := some "0xmod"
    readModule := fun _ => .ok true }

/-- Session state at the start of a run over the single Sepolia chain. -/
def stInit : SessionState :=
  ⟨initializeProgress [sepoliaChain], none, true, false⟩

/-- Session state of a chain whose previous attempt failed at
module-verify (wallet-create, module-sign, module-enable succeeded). -/
def stAfterVerifyFailure : SessionState :=
  ⟨fun k =>
    if k = "sepolia" then
      ⟨.success, .success, .success, .error,
        some "Module not enabled after transaction", some "0xsafe"⟩
    else idleEntry,
    none, true, false⟩

/-- A registry holding exactly the mainnet chain. -/
def mainnetRegistry : Nat → Option ChainInfo :=
  fun n => if n = 1 then some mainnetChain else none

/-- A registry holding both example chains. -/
def twoChainRegistry : Nat → Option ChainInfo :=
  fun n => if n = 11155111 then some sepoliaChain
    else if n = 1 then some mainnetChain else none

/-- A user whose mainnet wallet is already recorded. -/
def userWithMainnetWallet : UserData :=
  ⟨"u1", "0xowner", "user AT example", "2024-01-01", none, some "0xmainsafe"⟩

/-- Environment whose on-chain read returns false on the first two
attempts and true afterwards. -/
def envFalseReads : Env :=
  { baseEnv with readModule := fun n => if n < 2 then .ok false else .ok true }

/-- Environment whose on-chain read throws on the first two attempts and
returns true afterwards. -/
def envThrownReads : Env :=
  { baseEnv with readModule := fun n =>
      if n = 0 then .error "rpc unavailable"
      else if n = 1 then .error "rpc unavailable" else .ok true }

/-- Environment whose wallet creation returns a failed result. -/
def envCreateFails : Env :=
  { baseEnv with createResult := .ok ⟨false, none, some "wallet creation failed"⟩ }

/-- Environment whose provider is stuck on chain 999 while everything
else succeeds (the sign reports the module already enabled). -/
def envWrongProvider : Env :=
  { baseEnv with providerChainId := fun _ => some 999
                 signResult := .ok ⟨true, some ⟨1, ["0xowner"], ""⟩, none⟩ }

/-- Environment whose chain-switch request throws. -/
def envSwitchThrows : Env :=
  { baseEnv with switchResult := .error "user rejected switch" }

/-- Environment whose sign request throws (rejects). -/
def envSignThrows : Env :=
  { baseEnv with signResult := .error "user closed the prompt" }

/-- Environment whose sign succeeds with an empty transaction hash
(module already enabled). -/
def envAlreadyEnabled : Env :=
  { baseEnv with signResult := .ok ⟨true, some ⟨1, ["0xowner"], ""⟩, none⟩ }

/-- Environment with no module address configured. -/
def envNoModuleAddress : Env :=
  { baseEnv with moduleAddress := none }

/-! ## Helper lemmas -/

lemma waitForChainAux_hit (g : Nat → Option Nat) (target fuel t : Nat)
    (h : g t = some target) :
    waitForChainAux g target (fuel + 1) t = (.ok (), 1) := by
  simp [waitForChainAux, h]

lemma waitForChain_first_poll (g : Nat → Option Nat) (target timeoutMs : Nat)
    (hpos : 0 < timeoutMs) (h : g 0 = some target) :
    waitForChain g target timeoutMs = (.ok (), 1) := by
  have h1 : 0 < waitTicks timeoutMs := by unfold waitTicks; omega
  have h2 : waitTicks timeoutMs = (waitTicks timeoutMs - 1) + 1 := by omega
  unfold waitForChain
  rw [h2]
  exact waitForChainAux_hit _ _ _ _ h

lemma waitForChain_const10000 (target : Nat) :
    waitForChain (fun _ => some target) target 10000 = (.ok (), 1) :=
  waitForChain_first_poll _ _ _ (by norm_num) rfl

lemma waitForChainAux_never (g : Nat → Option Nat) (target : Nat)
    (h : ∀ t, g t ≠ some target) :
    ∀ fuel t, waitForChainAux g target fuel t =
      (.error ("Timeout waiting for chain " ++ toString target
        ++ " to become active"), fuel) := by
  intro fuel
  induction fuel with
  | zero => intro t; simp [waitForChainAux]
  | succ n ih => intro t; simp [waitForChainAux, h t, ih (t + 1)]

lemma waitForChain_never (g : Nat → Option Nat) (target timeoutMs : Nat)
    (h : ∀ t, g t ≠ some target) :
    waitForChain g target timeoutMs =
      (.error ("Timeout waiting for chain " ++ toString target
        ++ " to become active"), waitTicks timeoutMs) :=
  waitForChainAux_never g target h _ 0

lemma verifyLoop_succ (r : Nat → Except String Bool) (mR dMs fuel att : Nat)
    (le : Option String) :
    verifyLoop r mR dMs (fuel + 1) att le =
      (match r att with
       | .ok isEnabled => (.ok isEnabled, 1, [])
       | .error e =>
          let rest := verifyLoop r mR dMs fuel (att + 1) (some e)
          (rest.1, rest.2.1 + 1,
            if att < mR - 1 then verifyDelay dMs att :: rest.2.2
            else rest.2.2)) := by
  rfl

lemma verify_throw2_ok (cid : Nat) (m e1 e2 : String) :
    verifyModuleEnabled cid (some m)
      (fun n => if n = 0 then .error e1 else if n = 1 then .error e2 else .ok true)
      5 2000 = (.ok true, 3, [2000, 3000]) := by
  unfold verifyModuleEnabled
  show verifyLoop _ 5 2000 (4 + 1) 0 none = _
  rw [verifyLoop_succ]
  show (let rest := verifyLoop _ 5 2000 (3 + 1) 1 (some e1); ((rest.1, rest.2.1 + 1, if 0 < 5 - 1 then verifyDelay 2000 0 :: rest.2.2 else rest.2.2) : Except String Bool × Nat × List ℚ)) = _
  rw [verifyLoop_succ]
  show (let rest := verifyLoop _ 5 2000 (2 + 1) 2 (some e2); ((rest.1, rest.2.1 + 1 + 1, if 0 < 5 - 1 then verifyDelay 2000 0 :: (if 1 < 5 - 1 then verifyDelay 2000 1 :: rest.2.2 else rest.2.2) else (if 1 < 5 - 1 then verifyDelay 2000 1 :: rest.2.2 else rest.2.2)) : Except String Bool × Nat × List ℚ)) = _
  rw [verifyLoop_succ]
  norm_num [verifyDelay]

lemma verifyPhase_frame (env : Env) (chain : ChainConfig) (st : SessionState)
    (k : String) (hk : k ≠ chain.id) :
    (verifyPhase env chain st).state.progress k = st.progress k := by
  unfold verifyPhase
  repeat' split
  all_goals simp [setP, setSigning, updateProg, hk]

lemma submitPhase_frame (env : Env) (chain : ChainConfig) (st : SessionState)
    (k : String) (hk : k ≠ chain.id) :
    (submitPhase env chain st).state.progress k = st.progress k := by
  unfold submitPhase
  repeat' split
  all_goals simp [verifyPhase_frame env chain _ k hk, setP, setSigning,
    updateProg, hk]

lemma signPhase_frame (env : Env) (chain : ChainConfig) (st : SessionState)
    (k : String) (hk : k ≠ chain.id) :
    (signPhase env chain st).state.progress k = st.progress k := by
  unfold signPhase
  repeat' split
  all_goals simp [submitPhase_frame env chain _ k hk, setP, setSigning,
    updateProg, hk]

lemma switchPhase_frame (env : Env) (chain : ChainConfig) (st : SessionState)
    (k : String) (hk : k ≠ chain.id) :
    (switchPhase env chain st).state.progress k = st.progress k := by
  unfold switchPhase
  rcases h : ensureChainSelected env.hasEmbeddedWallet env.switchResult chain.chainId with e | u
  · simp [h, setP, setSigning, updateProg, hk]
  · simp [h, waitForChain_const10000, signPhase_frame env chain _ k hk, setP,
      setSigning, updateProg, hk]

lemma processChain_frame (env : Env) (chain : ChainConfig) (st : SessionState)
    (k : String) (hk : k ≠ chain.id) :
    (processChain env chain st).state.progress k = st.progress k := by
  unfold processChain
  repeat' split
  all_goals simp [switchPhase_frame env chain _ k hk, setP, setSigning,
    updateProg, hk]

lemma verifyPhase_flags (env : Env) (chain : ChainConfig) (st : SessionState) :
    (verifyPhase env chain st).state.needsOnboarding = st.needsOnboarding ∧
      (verifyPhase env chain st).state.isOnboarding = st.isOnboarding := by
  unfold verifyPhase
  repeat' split
  all_goals simp [setP, setSigning]

lemma submitPhase_flags (env : Env) (chain : ChainConfig) (st : SessionState) :
    (submitPhase env chain st).state.needsOnboarding = st.needsOnboarding ∧
      (submitPhase env chain st).state.isOnboarding = st.isOnboarding := by
  unfold submitPhase
  repeat' split
  all_goals simp [verifyPhase_flags env chain, setP, setSigning]

lemma signPhase_flags (env : Env) (chain : ChainConfig) (st : SessionState) :
    (signPhase env chain st).state.needsOnboarding = st.needsOnboarding ∧
      (signPhase env chain st).state.isOnboarding = st.isOnboarding := by
  unfold signPhase
  repeat' split
  all_goals simp [submitPhase_flags env chain, setP, setSigning]

lemma switchPhase_flags (env : Env) (chain : ChainConfig) (st : SessionState) :
    (switchPhase env chain st).state.needsOnboarding = st.needsOnboarding ∧
      (switchPhase env chain st).state.isOnboarding = st.isOnboarding := by
  unfold switchPhase
  rcases h : ensureChainSelected env.hasEmbeddedWallet env.switchResult chain.chainId with e | u
  · simp [h, setP, setSigning]
  · simp [h, waitForChain_const10000, signPhase_flags env chain, setP, setSigning]

lemma processChain_flags (env : Env) (chain : ChainConfig) (st : SessionState) :
    (processChain env chain st).state.needsOnboarding = st.needsOnboarding ∧
      (processChain env chain st).state.isOnboarding = st.isOnboarding := by
  unfold processChain
  repeat' split
  all_goals simp [switchPhase_flags env chain, setP, setSigning]

lemma verifyPhase_slot (env : Env) (chain : ChainConfig) (st : SessionState) :
    (verifyPhase env chain st).state.currentSigningChain =
      st.currentSigningChain := by
  unfold verifyPhase
  repeat' split
  all_goals simp [setP, setSigning]

lemma submitPhase_slot (env : Env) (chain : ChainConfig) (st : SessionState) :
    (submitPhase env chain st).state.currentSigningChain =
      st.currentSigningChain := by
  unfold submitPhase
  repeat' split
  all_goals simp [verifyPhase_slot env chain, setP, setSigning]

lemma signPhase_slot (env : Env) (chain : ChainConfig) (st : SessionState)
    (hs : ∀ e, env.signResult ≠ .error e) :
    (signPhase env chain st).state.currentSigningChain = none := by
  unfold signPhase
  rcases h : env.signResult with e | sr
  · exact absurd h (hs e)
  · simp only [h]
    repeat' split
    all_goals simp [submitPhase_slot env chain, setP, setSigning]

lemma switchPhase_slot (env : Env) (chain : ChainConfig) (st : SessionState)
    (hs : ∀ e, env.signResult ≠ .error e) :
    (switchPhase env chain st).state.currentSigningChain = none := by
  unfold switchPhase
  rcases h : ensureChainSelected env.hasEmbeddedWallet env.switchResult chain.chainId with e | u
  · simp [h, setP, setSigning]
  · simp [h, waitForChain_const10000, signPhase_slot env chain _ hs, setP,
      setSigning]

lemma processChain_slot (env : Env) (chain : ChainConfig) (st : SessionState)
    (h0 : st.currentSigningChain = none)
    (hs : ∀ e, env.signResult ≠ .error e) :
    (processChain env chain st).state.currentSigningChain = none := by
  unfold processChain
  repeat' split
  all_goals simp [switchPhase_slot env chain _ hs, setP, setSigning, h0]

lemma runChains_spec (envOf : String → Env) (p0 : String → ChainProgress) :
    ∀ (chains : List ChainConfig) (st : SessionState),
      (runChains envOf p0 chains st).2.2.map Prod.fst
          = (chains.filter (fun c => !isChainComplete (p0 c.id))).map ChainInfo.id
        ∧ (runChains envOf p0 chains st).1
          = (runChains envOf p0 chains st).2.2.all (fun p => p.2)
        ∧ (runChains envOf p0 chains st).2.1.needsOnboarding = st.needsOnboarding
        ∧ (runChains envOf p0 chains st).2.1.isOnboarding = st.isOnboarding := by
  intro chains
  induction chains with
  | nil => intro st; simp [runChains]
  | cons chain rest ih =>
      intro st
      by_cases hcomp : isChainComplete (p0 chain.id) = true
      · simpa [runChains, hcomp, List.filter_cons] using ih st
      · have hpc := processChain_flags (envOf chain.id) chain st
        obtain ⟨ih1, ih2, ih3, ih4⟩ := ih (processChain (envOf chain.id) chain st).state
        refine ⟨?_, ?_, ?_, ?_⟩ <;>
          simp [runChains, hcomp, List.filter_cons, ih1, ih2, ih3, ih4, hpc.1,
            hpc.2]

lemma initializeProgress_aux (chains : List ChainConfig) :
    ∀ (f : String → ChainProgress), (∀ k, f k = idleEntry) →
      ∀ k, (chains.foldl (fun acc chain k => if k = chain.id then idleEntry else acc k) f) k = idleEntry := by
  induction chains with
  | nil => intro f hf k; exact hf k
  | cons a l ih =>
      intro f hf k
      exact ih _ (fun k2 => by by_cases h : k2 = a.id <;> simp [h, hf]) k

lemma initializeProgress_eq (chains : List ChainConfig) (k : String) :
    initializeProgress chains k = idleEntry :=
  initializeProgress_aux chains _ (fun _ => rfl) k

lemma chainNeedsSetup_eq_spec (getChain : Nat → Option ChainInfo)
    (u : UserData) (c : ChainConfig) (h : getChain c.chainId = some c) :
    chainNeedsSetup getChain u c = requiresSetupSpec u c := by
  unfold chainNeedsSetup requiresSetupSpec
  rw [h]
  rcases hb : c.isTestnet <;> simp [hb]

lemma hasWalletFor_eq_not_spec (getChain : Nat → Option ChainInfo)
    (u : UserData) (c : ChainConfig) (h : getChain c.chainId = some c) :
    hasWalletFor getChain u c = !requiresSetupSpec u c := by
  unfold hasWalletFor requiresSetupSpec
  rw [h]
  rcases hb : c.isTestnet <;> simp [hb]

lemma prefillProgress_not_mem (getChain : Nat → Option ChainInfo)
    (u : UserData) :
    ∀ (chains : List ChainConfig) (prev : String → ChainProgress) (k : String),
      (∀ c ∈ chains, c.id ≠ k) →
      prefillProgress getChain u chains prev k = prev k := by
  intro chains
  induction chains with
  | nil => intro prev k _; rfl
  | cons a l ih =>
      intro prev k h
      show prefillProgress getChain u l _ k = prev k
      rw [ih _ k (fun c hc => h c (List.mem_cons_of_mem a hc))]
      by_cases hw : hasWalletFor getChain u a = true <;>
        simp [hw, fun x => h a (List.mem_cons_self a l) x,
          Ne.symm (h a (List.mem_cons_self a l))]

lemma prefillProgress_mem (getChain : Nat → Option ChainInfo) (u : UserData) :
    ∀ (chains : List ChainConfig) (prev : String → ChainProgress)
      (c : ChainConfig), c ∈ chains → (chains.map ChainInfo.id).Nodup →
      hasWalletFor getChain u c = true →
      prefillProgress getChain u chains prev c.id = allSuccessEntry := by
  intro chains
  induction chains with
  | nil => intro prev c hc; exact absurd hc (List.not_mem_nil c)
  | cons a l ih =>
      intro prev c hc hnd hw
      rcases List.mem_cons.mp hc with heq | hmem
      · subst heq
        have hnotin : ∀ x ∈ l, x.id ≠ c.id := by
          intro x hx
          have := (List.nodup_cons.mp hnd).1
          intro hex
          exact this (hex ▸ List.mem_map_of_mem ChainInfo.id hx)
        show prefillProgress getChain u l _ c.id = allSuccessEntry
        rw [prefillProgress_not_mem getChain u l _ c.id hnotin]
        simp [hw]
      · exact ih _ c hmem (List.nodup_cons.mp hnd).2 hw

/-! ## Claim theorems -/

/-- C1 counterexample: when the on-chain read RETURNS false on attempts 1
and 2 (and would return true on attempt 3, well within the budget of 5),
the verifier does not retry: it exits on the first returned value, and
module-verify ends error, not success. -/
theorem C1_counterexample :
    envFalseReads.readModule 0 = .ok false ∧
    envFalseReads.readModule 1 = .ok false ∧
    envFalseReads.readModule 2 = .ok true ∧
    (processChain envFalseReads sepoliaChain stInit).ok = false ∧
    ((processChain envFalseReads sepoliaChain stInit).state.progress "sepolia").moduleVerify = .error ∧
    ((processChain envFalseReads sepoliaChain stInit).state.progress "sepolia").error
      = some "Module not enabled after transaction" :=
  ⟨rfl, rfl, rfl, rfl, rfl, rfl⟩

/-- C1 (amended): the bounded retries with increasing backoff (2 s base,
x1.5 growth) apply only to THROWN reads: if the read throws on attempts 1
and 2 but returns true on attempt 3 (within the budget of 5 passed by
`processChain`), module-verify ends success, three reads are performed,
and the delays slept are 2000 ms and 3000 ms; a read that returns false
ends verification immediately (see the counterexample). -/
theorem C1_verify_retries_only_thrown_reads (env : Env) (chain : ChainConfig)
    (st : SessionState) (cr : CreateSafeResult) (sr : SignResult)
    (d : SignEnableModuleResult) (subr : SubmitResult) (m e1 e2 : String)
    (hc : env.createResult = .ok cr) (hcs : cr.success = true)
    (hw : env.hasEmbeddedWallet = true) (hsw : env.switchResult = .ok ())
    (hs : env.signResult = .ok sr) (hss : sr.success = true)
    (hd : sr.data = some d) (hdh : ¬d.safeTxHash = "")
    (hsub : env.submitResult = .ok subr) (hsubs : subr.success = true)
    (hp : env.hasEthereumProvider = true)
    (hm : env.moduleAddress = some m)
    (hread : env.readModule = fun n =>
      if n = 0 then .error e1 else if n = 1 then .error e2 else .ok true) :
    (processChain env chain st).ok = true ∧
      ((processChain env chain st).state.progress chain.id).moduleVerify = .success ∧
      verifyModuleEnabled chain.chainId env.moduleAddress env.readModule 5 2000
        = (.ok true, 3, [2000, 3000]) := by
  simp [processChain, switchPhase, signPhase, submitPhase, verifyPhase,
    ensureChainSelected, waitForChain_const10000, hc, hcs, hw, hsw, hs, hss,
    hd, hdh, hsub, hsubs, hp, hm, hread, verify_throw2_ok,
    setP, setSigning, updateProg]

/-- C1 witness: the amended theorem at a concrete environment whose read
throws twice and then reports true. -/
theorem C1_verify_retries_only_thrown_reads_witness :
    (processChain envThrownReads sepoliaChain stInit).ok = true ∧
      ((processChain envThrownReads sepoliaChain stInit).state.progress "sepolia").moduleVerify = .success ∧
      verifyModuleEnabled 11155111 envThrownReads.moduleAddress
        envThrownReads.readModule 5 2000 = (.ok true, 3, [2000, 3000]) :=
  C1_verify_retries_only_thrown_reads envThrownReads sepoliaChain stInit
    ⟨true, some "0xsafe", none⟩ ⟨true, some ⟨1, ["0xowner"], "0xhash"⟩, none⟩
    ⟨1, ["0xowner"], "0xhash"⟩ ⟨true, none⟩ "0xmod" "rpc unavailable"
    "rpc unavailable" rfl rfl rfl rfl rfl rfl rfl (by decide) rfl rfl rfl rfl
    rfl



/-- C2 counterexample: retrying the chain whose previous attempt failed at
module-verify does not reset its step statuses to idle — with wallet-create
failing on the retry, the old module-sign and module-enable successes and
the old module-verify error all survive into the new attempt. -/
theorem C2_counterexample :
    ((retryChain envCreateFails [sepoliaChain] (.inl "sepolia") stAfterVerifyFailure).state.progress "sepolia").walletCreate = .error ∧
    ((retryChain envCreateFails [sepoliaChain] (.inl "sepolia") stAfterVerifyFailure).state.progress "sepolia").moduleSign = .success ∧
    ((retryChain envCreateFails [sepoliaChain] (.inl "sepolia") stAfterVerifyFailure).state.progress "sepolia").moduleEnable = .success ∧
    ((retryChain envCreateFails [sepoliaChain] (.inl "sepolia") stAfterVerifyFailure).state.progress "sepolia").moduleVerify = .error :=
  ⟨rfl, rfl, rfl, rfl⟩

/-- C2 (amended): a retry starts over from wallet-create (the entry is
re-pended with its error message cleared, and wallet-create's outcome is
recorded), but the other three step statuses are NOT reset to idle: each
keeps its value from the failed attempt until the retry's execution
reaches and overwrites that step, as witnessed by a retry whose
wallet-create fails again. -/
theorem C2_retry_restarts_without_reset (env : Env) (chain : ChainConfig)
    (st : SessionState) (cr : CreateSafeResult)
    (hc : env.createResult = .ok cr) (hcs : cr.success = false) :
    ((retryChain env [chain] (.inl chain.id) st).state.progress chain.id).walletCreate = .error ∧
    ((retryChain env [chain] (.inl chain.id) st).state.progress chain.id).error = cr.error ∧
    ((retryChain env [chain] (.inl chain.id) st).state.progress chain.id).moduleSign
      = (st.progress chain.id).moduleSign ∧
    ((retryChain env [chain] (.inl chain.id) st).state.progress chain.id).moduleEnable
      = (st.progress chain.id).moduleEnable ∧
    ((retryChain env [chain] (.inl chain.id) st).state.progress chain.id).moduleVerify
      = (st.progress chain.id).moduleVerify := by
  have hf : List.find? (fun c => identMatches c (Sum.inl chain.id)) [chain] = some chain := by
    simp [identMatches]
  simp [retryChain, hf, processChain, hc, hcs, setP, updateProg]

/-- C2 witness: the amended theorem at the concrete failed-verify state. -/
theorem C2_retry_restarts_without_reset_witness :
    ((retryChain envCreateFails [sepoliaChain] (.inl "sepolia") stAfterVerifyFailure).state.progress "sepolia").walletCreate = .error ∧
    ((retryChain envCreateFails [sepoliaChain] (.inl "sepolia") stAfterVerifyFailure).state.progress "sepolia").error
      = (⟨false, none, some "wallet creation failed"⟩ : CreateSafeResult).error ∧
    ((retryChain envCreateFails [sepoliaChain] (.inl "sepolia") stAfterVerifyFailure).state.progress "sepolia").moduleSign
      = (stAfterVerifyFailure.progress "sepolia").moduleSign ∧
    ((retryChain envCreateFails [sepoliaChain] (.inl "sepolia") stAfterVerifyFailure).state.progress "sepolia").moduleEnable
      = (stAfterVerifyFailure.progress "sepolia").moduleEnable ∧
    ((retryChain envCreateFails [sepoliaChain] (.inl "sepolia") stAfterVerifyFailure).state.progress "sepolia").moduleVerify
      = (stAfterVerifyFailure.progress "sepolia").moduleVerify :=
  C2_retry_restarts_without_reset envCreateFails sepoliaChain
    stAfterVerifyFailure ⟨false, none, some "wallet creation failed"⟩ rfl rfl

/-- C3 counterexample: the provider reports chain 999 at every poll — it
never reports the target 11155111 — yet module-sign ends success and the
chain is reported fully processed, because `processChain` hands
`waitForChain` a constant getter equal to the target instead of the
provider's reported chain id. -/
theorem C3_counterexample :
    envWrongProvider.providerChainId = (fun _ => some 999) ∧
    sepoliaChain.chainId = 11155111 ∧
    (processChain envWrongProvider sepoliaChain stInit).ok = true ∧
    ((processChain envWrongProvider sepoliaChain stInit).state.progress "sepolia").moduleSign = .success ∧
    (processChain envWrongProvider sepoliaChain stInit).state.currentSigningChain = none :=
  ⟨rfl, rfl, rfl, rfl, rfl⟩

/-- C3 (amended): the `waitForChain` primitive does poll its getter every
100 ms up to the 10 s timeout (100 polls), but `processChain` invokes it
with the constant getter `() => numericChainId`, so the wait returns on
the first poll regardless of the provider's actual chain; module-sign
ends error with the signing slot cleared exactly when the switch request
itself throws. -/
theorem C3_wait_uses_constant_getter (env : Env) (chain : ChainConfig)
    (st : SessionState) (cr : CreateSafeResult) (msg : String)
    (hc : env.createResult = .ok cr) (hcs : cr.success = true)
    (hw : env.hasEmbeddedWallet = true)
    (hswe : env.switchResult = .error msg) :
    waitForChain (fun _ => some chain.chainId) chain.chainId 10000 = (.ok (), 1) ∧
    (∀ (g : Nat → Option Nat) (target : Nat), (∀ t, g t ≠ some target) →
      waitForChain g target 10000 =
        (.error ("Timeout waiting for chain " ++ toString target
          ++ " to become active"), 100)) ∧
    (processChain env chain st).ok = false ∧
    ((processChain env chain st).state.progress chain.id).moduleSign = .error ∧
    (processChain env chain st).state.currentSigningChain = none := by
  refine ⟨waitForChain_const10000 _, ?_, ?_⟩
  · intro g target h
    have h2 := waitForChain_never g target 10000 h
    simpa [waitTicks] using h2
  · constructor <;> [skip; constructor] <;>
      simp [processChain, switchPhase, ensureChainSelected, hc, hcs, hw, hswe,
        setP, setSigning, updateProg]

/-- C3 witness: the amended theorem at a concrete environment whose switch
request throws, plus the timeout branch at a getter stuck on chain 999. -/
theorem C3_wait_uses_constant_getter_witness :
    waitForChain (fun _ => some 11155111) 11155111 10000 = (.ok (), 1) ∧
    waitForChain (fun _ => some 999) 11155111 10000 =
      (.error ("Timeout waiting for chain " ++ toString 11155111
        ++ " to become active"), 100) ∧
    (processChain envSwitchThrows sepoliaChain stInit).ok = false ∧
    ((processChain envSwitchThrows sepoliaChain stInit).state.progress "sepolia").moduleSign = .error ∧
    (processChain envSwitchThrows sepoliaChain stInit).state.currentSigningChain = none := by
  obtain ⟨h1, h2, h3, h4, h5⟩ := C3_wait_uses_constant_getter envSwitchThrows
    sepoliaChain stInit ⟨true, some "0xsafe", none⟩ "user rejected switch"
    rfl rfl rfl rfl
  exact ⟨h1, h2 (fun _ => some 999) 11155111 (by intro t; simp), h3, h4, h5⟩

/-- C4 counterexample: `signEnableModule` throwing (rather than returning a
failed result) lands in the outer catch, which does not clear the signing
slot — the chain execution terminates as failed with the slot still
occupied by "sepolia". -/
theorem C4_counterexample :
    (processChain envSignThrows sepoliaChain stInit).ok = false ∧
    (processChain envSignThrows sepoliaChain stInit).state.currentSigningChain
      = some "sepolia" :=
  ⟨rfl, rfl⟩

/-- C4 (amended): the slot is released on every exit path on which
`signEnableModule` RETURNS (switch failure, failed sign result, sign
success and everything after it): starting from a free slot, any
execution whose sign call does not throw ends with the slot free.  A
thrown sign call reaches the outer catch, which does not release the
slot (see the counterexample). -/
theorem C4_slot_released_when_sign_returns (env : Env) (chain : ChainConfig)
    (st : SessionState) (h0 : st.currentSigningChain = none)
    (hsig : ∀ e, env.signResult ≠ .error e) :
    (processChain env chain st).state.currentSigningChain = none :=
  processChain_slot env chain st h0 hsig

/-- C4 witness: the amended theorem on the all-success environment. -/
theorem C4_slot_released_when_sign_returns_witness :
    (processChain baseEnv sepoliaChain stInit).state.currentSigningChain = none :=
  C4_slot_released_when_sign_returns baseEnv sepoliaChain stInit rfl
    (by intro e; simp [baseEnv])

/-- C5 counterexample: `fetchUserData` returns null both on a transport
error (the fetch throws) and on a no-record response, so null does not
distinguish "no backend record yet" from a transport error. -/
theorem C5_counterexample :
    fetchUserData true (some "token") (.error "network down") = none ∧
    fetchUserData true (some "token") (.ok ⟨false, false, none⟩) = none :=
  ⟨rfl, rfl⟩

/-- C5 (amended): a null user record conflates "no backend record" with a
transport failure — any thrown fetch yields null — and in all such cases
the user check reports needs-onboarding = true with the progress map
untouched, so a fetch failure biases towards onboarding rather than
failing. -/
theorem C5_null_conflates_transport_and_missing (tok : Option String)
    (e : String) (getChain : Nat → Option ChainInfo)
    (chains : List ChainConfig) (prev : String → ChainProgress) :
    fetchUserData true tok (.error e) = none ∧
    (checkUser getChain chains none prev).1 = true ∧
    (checkUser getChain chains none prev).2 = prev := by
  refine ⟨?_, rfl, rfl⟩
  cases tok <;> rfl



/-- C6: a successful sign whose payload carries an empty `safeTxHash`
(module already enabled) short-circuits: the chain is reported fully
processed, module-enable and module-verify are both set success, and the
call log ends at the sign call — `submitEnableModule` is never invoked. -/
theorem C6_already_enabled_short_circuit (env : Env) (chain : ChainConfig)
    (st : SessionState) (cr : CreateSafeResult) (sr : SignResult)
    (d : SignEnableModuleResult)
    (hc : env.createResult = .ok cr) (hcs : cr.success = true)
    (hw : env.hasEmbeddedWallet = true) (hsw : env.switchResult = .ok ())
    (hs : env.signResult = .ok sr) (hss : sr.success = true)
    (hd : sr.data = some d) (hdh : d.safeTxHash = "") :
    (processChain env chain st).ok = true ∧
      ((processChain env chain st).state.progress chain.id).moduleEnable = .success ∧
      ((processChain env chain st).state.progress chain.id).moduleVerify = .success ∧
      (processChain env chain st).calls = [.createWallet, .switchChain, .sign] ∧
      CallEvent.submit ∉ (processChain env chain st).calls := by
  simp [processChain, switchPhase, signPhase, ensureChainSelected,
    waitForChain_const10000, hc, hcs, hw, hsw, hs, hss, hd, hdh,
    setP, setSigning, updateProg]

/-- C6 witness: the short-circuit theorem at a concrete already-enabled
environment. -/
theorem C6_already_enabled_short_circuit_witness :
    (processChain envAlreadyEnabled sepoliaChain stInit).ok = true ∧
      ((processChain envAlreadyEnabled sepoliaChain stInit).state.progress "sepolia").moduleEnable = .success ∧
      ((processChain envAlreadyEnabled sepoliaChain stInit).state.progress "sepolia").moduleVerify = .success ∧
      (processChain envAlreadyEnabled sepoliaChain stInit).calls
        = [.createWallet, .switchChain, .sign] ∧
      CallEvent.submit ∉ (processChain envAlreadyEnabled sepoliaChain stInit).calls :=
  C6_already_enabled_short_circuit envAlreadyEnabled sepoliaChain stInit
    ⟨true, some "0xsafe", none⟩ ⟨true, some ⟨1, ["0xowner"], ""⟩, none⟩
    ⟨1, ["0xowner"], ""⟩ rfl rfl rfl rfl rfl rfl rfl rfl

/-- C7: a full run attempts every not-yet-complete configured chain in
static order regardless of per-chain failures (the run log lists exactly
those chains, in order), the user record is refetched after the loop, and
needs-onboarding is cleared when every processed chain succeeded and is
left unchanged when any of them failed; the in-progress flag is cleared at
the end. -/
theorem C7_run_attempts_every_chain (envOf : String → Env)
    (chains : List ChainConfig) (st : SessionState)
    (h : st.isOnboarding = false) :
    (startOnboarding envOf chains st).log.map Prod.fst
        = (chains.filter (fun c => !isChainComplete (st.progress c.id))).map ChainInfo.id ∧
      (startOnboarding envOf chains st).refetched = true ∧
      ((startOnboarding envOf chains st).log.all (fun p => p.2) = true →
        (startOnboarding envOf chains st).state.needsOnboarding = false) ∧
      ((startOnboarding envOf chains st).log.all (fun p => p.2) = false →
        (startOnboarding envOf chains st).state.needsOnboarding
          = st.needsOnboarding) ∧
      (startOnboarding envOf chains st).state.isOnboarding = false := by
  obtain ⟨r1, r2, r3, r4⟩ :=
    runChains_spec envOf st.progress chains { st with isOnboarding := true }
  by_cases hall :
      (runChains envOf st.progress chains { st with isOnboarding := true }).1 = true
  · refine ⟨?_, ?_, ?_, ?_, ?_⟩ <;>
      simp [startOnboarding, h, hall, r1, ← r2, r3]
  · refine ⟨?_, ?_, ?_, ?_, ?_⟩ <;>
      simp [startOnboarding, h, hall, r1, ← r2, r3]

/-- C7 witness: the full-run theorem at a concrete single-chain run. -/
theorem C7_run_attempts_every_chain_witness :
    (startOnboarding (fun _ => baseEnv) [sepoliaChain] stInit).log.map Prod.fst
        = (([sepoliaChain].filter (fun c => !isChainComplete (stInit.progress c.id))).map ChainInfo.id) ∧
      (startOnboarding (fun _ => baseEnv) [sepoliaChain] stInit).refetched = true ∧
      ((startOnboarding (fun _ => baseEnv) [sepoliaChain] stInit).log.all (fun p => p.2) = true →
        (startOnboarding (fun _ => baseEnv) [sepoliaChain] stInit).state.needsOnboarding = false) ∧
      ((startOnboarding (fun _ => baseEnv) [sepoliaChain] stInit).log.all (fun p => p.2) = false →
        (startOnboarding (fun _ => baseEnv) [sepoliaChain] stInit).state.needsOnboarding
          = stInit.needsOnboarding) ∧
      (startOnboarding (fun _ => baseEnv) [sepoliaChain] stInit).state.isOnboarding = false :=
  C7_run_attempts_every_chain (fun _ => baseEnv) [sepoliaChain] stInit rfl

/-- C9: retrying a single chain never writes any other chain's progress
entry — whatever chain the identifier resolves to, every key other than
that chain's id keeps its previous entry. -/
theorem C9_retry_frame (env : Env) (chains : List ChainConfig)
    (ident : String ⊕ Nat) (st : SessionState) (k : String)
    (hk : ∀ c, List.find? (fun c => identMatches c ident) chains = some c →
      k ≠ c.id) :
    (retryChain env chains ident st).state.progress k = st.progress k := by
  cases hf : List.find? (fun c => identMatches c ident) chains with
  | none => simp [retryChain, hf]
  | some c =>
      have hkc := hk c hf
      simp only [retryChain, hf]
      repeat' split
      all_goals simp [processChain_frame env c st k hkc]

/-- C9 witness: retrying "sepolia" leaves "mainnet"'s entry unchanged. -/
theorem C9_retry_frame_witness :
    (retryChain baseEnv [sepoliaChain, mainnetChain] (.inl "sepolia")
      stInit).state.progress "mainnet" = stInit.progress "mainnet" :=
  C9_retry_frame baseEnv [sepoliaChain, mainnetChain] (.inl "sepolia") stInit
    "mainnet"
    (by
      intro c hfc
      rw [show List.find? (fun c => identMatches c (Sum.inl "sepolia"))
        [sepoliaChain, mainnetChain] = some sepoliaChain from rfl] at hfc
      cases hfc
      decide)

/-- C10: with no module address configured for the chain, the verifier
throws before any on-chain read (zero reads, no delays), and
`processChain` records module-verify = error with a verification-failed
message carrying the underlying error and reports the chain failed. -/
theorem C10_missing_module_address (env : Env) (chain : ChainConfig)
    (st : SessionState) (cr : CreateSafeResult) (sr : SignResult)
    (d : SignEnableModuleResult) (subr : SubmitResult)
    (hc : env.createResult = .ok cr) (hcs : cr.success = true)
    (hw : env.hasEmbeddedWallet = true) (hsw : env.switchResult = .ok ())
    (hs : env.signResult = .ok sr) (hss : sr.success = true)
    (hd : sr.data = some d) (hdh : ¬d.safeTxHash = "")
    (hsub : env.submitResult = .ok subr) (hsubs : subr.success = true)
    (hp : env.hasEthereumProvider = true)
    (hm : env.moduleAddress = none) :
    verifyModuleEnabled chain.chainId env.moduleAddress env.readModule 5 2000
        = (.error ("Module address not configured for chain "
            ++ toString chain.chainId), 0, []) ∧
      (processChain env chain st).ok = false ∧
      ((processChain env chain st).state.progress chain.id).moduleVerify = .error ∧
      ((processChain env chain st).state.progress chain.id).error
        = some ("Verification failed: Module address not configured for chain "
            ++ toString chain.chainId) := by
  refine ⟨by simp [verifyModuleEnabled, hm], ?_, ?_, ?_⟩ <;>
    simp [processChain, switchPhase, signPhase, submitPhase, verifyPhase,
      ensureChainSelected, waitForChain_const10000, verifyModuleEnabled,
      hc, hcs, hw, hsw, hs, hss, hd, hdh, hsub, hsubs, hp, hm,
      setP, setSigning, updateProg, ← String.append_assoc]

/-- C10 witness: the missing-module-address theorem at a concrete
environment. -/
theorem C10_missing_module_address_witness :
    verifyModuleEnabled 11155111 envNoModuleAddress.moduleAddress
        envNoModuleAddress.readModule 5 2000
        = (.error ("Module address not configured for chain "
            ++ toString 11155111), 0, []) ∧
      (processChain envNoModuleAddress sepoliaChain stInit).ok = false ∧
      ((processChain envNoModuleAddress sepoliaChain stInit).state.progress "sepolia").moduleVerify = .error ∧
      ((processChain envNoModuleAddress sepoliaChain stInit).state.progress "sepolia").error
        = some ("Verification failed: Module address not configured for chain "
            ++ toString 11155111) :=
  C10_missing_module_address envNoModuleAddress sepoliaChain stInit
    ⟨true, some "0xsafe", none⟩ ⟨true, some ⟨1, ["0xowner"], "0xhash"⟩, none⟩
    ⟨1, ["0xowner"], "0xhash"⟩ ⟨true, none⟩ rfl rfl rfl rfl rfl rfl rfl
    (by decide) rfl rfl rfl rfl



/-- C8 counterexample: a mainnet-only configuration for a user whose
mainnet wallet is recorded — the chain does not require setup, yet
`checkUser` reports no onboarding needed WITHOUT pre-filling that chain's
progress: the entry stays fully idle rather than all-success, because the
pre-fill only runs when at least one chain still needs setup. -/
theorem C8_counterexample :
    (checkUser mainnetRegistry [mainnetChain] (some userWithMainnetWallet)
      (initializeProgress [mainnetChain])).1 = false ∧
    (checkUser mainnetRegistry [mainnetChain] (some userWithMainnetWallet)
      (initializeProgress [mainnetChain])).2 "mainnet" = idleEntry ∧
    requiresSetupSpec userWithMainnetWallet mainnetChain = false ∧
    idleEntry ≠ allSuccessEntry :=
  ⟨rfl, rfl, rfl, by decide⟩

/-- C8 (amended): for a brand-new user needs-onboarding is true with the
progress map untouched (and the initial map is fully idle); for an
existing user, needs-onboarding holds iff some chain requires setup per
the spec's testnet/mainnet-wallet rule (assuming each configured chain is
registered under its own chain id); the all-success pre-fill of chains
that do NOT require setup happens only when at least one chain still
requires setup — when none does, the progress map is left untouched. -/
theorem C8_prefill_only_when_setup_pending (getChain : Nat → Option ChainInfo)
    (chains : List ChainConfig) (u : UserData) (prev : String → ChainProgress)
    (hreg : ∀ c ∈ chains, getChain c.chainId = some c)
    (hnd : (chains.map ChainInfo.id).Nodup) :
    (∀ (p2 : String → ChainProgress), checkUser getChain chains none p2 = (true, p2)) ∧
    (∀ k, initializeProgress chains k = idleEntry) ∧
    (checkUser getChain chains (some u) prev).1 = chains.any (requiresSetupSpec u) ∧
    (chains.any (requiresSetupSpec u) = true →
      ∀ c ∈ chains, requiresSetupSpec u c = false →
        (checkUser getChain chains (some u) prev).2 c.id = allSuccessEntry) ∧
    (chains.any (requiresSetupSpec u) = false →
      checkUser getChain chains (some u) prev = (false, prev)) := by
  have hfeq : chains.filter (chainNeedsSetup getChain u)
      = chains.filter (requiresSetupSpec u) :=
    List.filter_congr (fun c hc => by
      rw [chainNeedsSetup_eq_spec getChain u c (hreg c hc)])
  refine ⟨fun p2 => rfl, initializeProgress_eq chains, ?_, ?_, ?_⟩
  · by_cases hany : chains.any (requiresSetupSpec u) = true
    · obtain ⟨c, hc, hpc⟩ := List.any_eq_true.mp hany
      have hpos : 0 < (chains.filter (requiresSetupSpec u)).length :=
        List.length_pos.mpr (List.ne_nil_of_mem (List.mem_filter.mpr ⟨hc, hpc⟩))
      simp [checkUser, hfeq, hpos, hany]
    · rw [Bool.not_eq_true] at hany
      have hfil : chains.filter (requiresSetupSpec u) = [] :=
        List.filter_eq_nil_iff.mpr (fun c hc =>
          by simpa using List.any_eq_false.mp hany c hc)
      simp [checkUser, hfeq, hfil, hany]
  · intro hany c hc hnospec
    obtain ⟨c2, hc2, hpc2⟩ := List.any_eq_true.mp hany
    have hpos : 0 < (chains.filter (requiresSetupSpec u)).length :=
      List.length_pos.mpr (List.ne_nil_of_mem (List.mem_filter.mpr ⟨hc2, hpc2⟩))
    have hw : hasWalletFor getChain u c = true := by
      rw [hasWalletFor_eq_not_spec getChain u c (hreg c hc), hnospec]
      rfl
    simp only [checkUser, hfeq, hpos, if_pos hpos]
    exact prefillProgress_mem getChain u chains prev c hc hnd hw
  · intro hany
    have hfil : chains.filter (requiresSetupSpec u) = [] :=
      List.filter_eq_nil_iff.mpr (fun c hc =>
        by simpa using List.any_eq_false.mp hany c hc)
    simp [checkUser, hfeq, hfil]

/-- C8 witness: the amended theorem at the two-chain configuration for a
user holding only a mainnet wallet. -/
theorem C8_prefill_only_when_setup_pending_witness :
    checkUser twoChainRegistry [sepoliaChain, mainnetChain] none
        (initializeProgress [sepoliaChain, mainnetChain])
      = (true, initializeProgress [sepoliaChain, mainnetChain]) ∧
    initializeProgress [sepoliaChain, mainnetChain] "sepolia" = idleEntry ∧
    (checkUser twoChainRegistry [sepoliaChain, mainnetChain]
        (some userWithMainnetWallet)
        (initializeProgress [sepoliaChain, mainnetChain])).1
      = [sepoliaChain, mainnetChain].any (requiresSetupSpec userWithMainnetWallet) ∧
    (checkUser twoChainRegistry [sepoliaChain, mainnetChain]
        (some userWithMainnetWallet)
        (initializeProgress [sepoliaChain, mainnetChain])).2 "mainnet"
      = allSuccessEntry := by
  obtain ⟨h1, h2, h3, h4, h5⟩ := C8_prefill_only_when_setup_pending
    twoChainRegistry [sepoliaChain, mainnetChain] userWithMainnetWallet
    (initializeProgress [sepoliaChain, mainnetChain])
    (by intro c hc; fin_cases hc <;> rfl) (by decide)
  exact ⟨h1 _, h2 "sepolia", h3,
    h4 (by decide) mainnetChain (by decide) (by decide)⟩

end FF
